import Mathlib

/-!
Verification of the compliant bistable four-bar PRB (pseudo-rigid-body) model
core: the kinematics/energy evaluator `calculateKinematics`, the degree/radian
normalization helpers, and the joint position projector `getJointPositions`,
embedded over the real numbers.
-/

namespace Bistable

open Real

/-- Characteristic pivot ratio of the PRB model (source constant `PRB_GAMMA`). -/
def PRB_GAMMA : ℝ := 0.85

/-- Dimensionless stiffness coefficient (source constant `PRB_K_THETA`). -/
def PRB_K_THETA : ℝ := 2.65

/-- Linkage geometry, reference angles and beam material data
(source interface `MechanismParams`). -/
structure MechanismParams where
  r1 : ℝ
  r2 : ℝ
  r3 : ℝ
  L4 : ℝ
  E : ℝ
  b : ℝ
  h : ℝ
  theta20 : ℝ
  theta40 : ℝ

/-- Reference default scenario (source constant `DEFAULT_PARAMS`). -/
def DEFAULT_PARAMS : MechanismParams :=
  { r1 := 3.0, r2 := 1.5, r3 := 3.71, L4 := 4.32, E := 1.4e9,
    b := 0.005, h := 0.0015, theta20 := 90, theta40 := 90 }

/-- Derived PRB constants embedded in each evaluation result
(source interface `PRBDetails`). -/
structure PRBDetails where
  gamma : ℝ
  kTheta : ℝ
  r4 : ℝ
  I : ℝ
  K : ℝ

/-- One evaluated mechanism state (source interface `SimulationPoint`). -/
structure SimulationPoint where
  theta2 : ℝ
  theta3 : ℝ
  theta4 : ℝ
  deltaTheta2 : ℝ
  energy : ℝ
  torque : ℝ
  isValid : Bool
  prb : PRBDetails

/-- Cartesian coordinates of the four pin joints
(source interface `JointPositions`). -/
structure JointPositions where
  A0 : ℝ × ℝ
  A : ℝ × ℝ
  B : ℝ × ℝ
  B0 : ℝ × ℝ

/-- Truncation toward zero, the rounding used by the `%` remainder operator of
the source language. -/
noncomputable def truncToZero (x : ℝ) : ℤ :=
  if 0 ≤ x then ⌊x⌋ else ⌈x⌉

/-- The `%` remainder of the source language on real operands: the result has
the sign of the dividend (`a - b * trunc (a / b)`). -/
noncomputable def jsMod (a b : ℝ) : ℝ :=
  a - b * truncToZero (a / b)

/-- Source helper `normalizeDegrees`: reduce an angle in degrees into
`(-180, 180]` by a remainder followed by two conditional 360-shifts. -/
noncomputable def normalizeDegrees (deg : ℝ) : ℝ :=
  let d0 := jsMod deg 360
  let d1 := if d0 > 180 then d0 - 360 else d0
  if d1 ≤ -180 then d1 + 360 else d1

/-- Source helper `normalizeRadians`: reduce an angle in radians into
`(-π, π]` by a remainder followed by two conditional 2π-shifts. -/
noncomputable def normalizeRadians (rad : ℝ) : ℝ :=
  let r0 := jsMod rad (2 * π)
  let r1 := if r0 > π then r0 - 2 * π else r0
  if r1 ≤ -π then r1 + 2 * π else r1

/-- The two-argument arctangent `Math.atan2 y x` of the source language,
with range `(-π, π]` and `atan2 0 0 = 0`. -/
noncomputable def atan2 (y x : ℝ) : ℝ :=
  if 0 < x then arctan (y / x)
  else if x < 0 then
    (if 0 ≤ y then arctan (y / x) + π else arctan (y / x) - π)
  else if 0 < y then π / 2
  else if y < 0 then -(π / 2)
  else 0

/-- Crank pin abscissa `Ax = r2 cos θ2` (radian input computed from degrees). -/
noncomputable def AxD (theta2Deg : ℝ) (p : MechanismParams) : ℝ :=
  p.r2 * Real.cos (theta2Deg * π / 180)

/-- Crank pin ordinate `Ay = r2 sin θ2`. -/
noncomputable def AyD (theta2Deg : ℝ) (p : MechanismParams) : ℝ :=
  p.r2 * Real.sin (theta2Deg * π / 180)

/-- Squared distance from the crank pin `A` to the fixed pivot `B0 = (r1, 0)`
(`distSq` in the source: `dx*dx + dy*dy`). -/
noncomputable def distSqD (theta2Deg : ℝ) (p : MechanismParams) : ℝ :=
  (AxD theta2Deg p - p.r1) * (AxD theta2Deg p - p.r1) +
    AyD theta2Deg p * AyD theta2Deg p

/-- Distance from the crank pin to the fixed pivot (`dist` in the source). -/
noncomputable def distD (theta2Deg : ℝ) (p : MechanismParams) : ℝ :=
  Real.sqrt (distSqD theta2Deg p)

/-- Second moment of area `I = b h³ / 12` (`I_val` in the source). -/
noncomputable def I_valD (p : MechanismParams) : ℝ :=
  p.b * p.h ^ 3 / 12

/-- Torsional spring stiffness
`K = γ kΘ (E I / L4_meters)` with `L4_meters = L4 / 100` (`K_val`). -/
noncomputable def K_valD (p : MechanismParams) : ℝ :=
  PRB_GAMMA * PRB_K_THETA * (p.E * I_valD p / (p.L4 / 100))

/-- The assembly failure condition of the source: the circles of radii `r3`
and `r4` about `A` and `B0` do not intersect. -/
def infeasibleD (theta2Deg : ℝ) (p : MechanismParams) : Prop :=
  distD theta2Deg p > p.r3 + PRB_GAMMA * p.L4 ∨
    distD theta2Deg p < |p.r3 - PRB_GAMMA * p.L4|

/-- Law-of-cosines value `cosβ = (r4² + d² - r3²) / (2 r4 d)` (`cosBeta`). -/
noncomputable def cosBetaD (theta2Deg : ℝ) (p : MechanismParams) : ℝ :=
  (PRB_GAMMA * p.L4 * (PRB_GAMMA * p.L4) + distSqD theta2Deg p -
      p.r3 * p.r3) /
    (2 * (PRB_GAMMA * p.L4) * distD theta2Deg p)

/-- Interior angle `β = acos (clamp cosβ)`, with the source's explicit clamp
`Math.max(-1, Math.min(1, cosBeta))`. -/
noncomputable def betaD (theta2Deg : ℝ) (p : MechanismParams) : ℝ :=
  arccos (max (-1) (min 1 (cosBetaD theta2Deg p)))

/-- Polar angle `φ = atan2 dy dx` of the crank pin seen from `B0` (`phi`). -/
noncomputable def phiD (theta2Deg : ℝ) (p : MechanismParams) : ℝ :=
  atan2 (AyD theta2Deg p) (AxD theta2Deg p - p.r1)

open Classical in
/-- Rocker angle in radians (`t4` in the source): `φ - β` when feasible,
`0` otherwise. -/
noncomputable def rawTheta4 (theta2Deg : ℝ) (p : MechanismParams) : ℝ :=
  if infeasibleD theta2Deg p then 0 else phiD theta2Deg p - betaD theta2Deg p

open Classical in
/-- Coupler angle in radians (`t3` in the source):
`atan2 (By - Ay) (Bx - Ax)` with `B = B0 + r4 (cos t4, sin t4)` when
feasible, `0` otherwise. -/
noncomputable def rawTheta3 (theta2Deg : ℝ) (p : MechanismParams) : ℝ :=
  if infeasibleD theta2Deg p then 0
  else
    atan2 (PRB_GAMMA * p.L4 * Real.sin (rawTheta4 theta2Deg p) - AyD theta2Deg p)
      (p.r1 + PRB_GAMMA * p.L4 * Real.cos (rawTheta4 theta2Deg p) - AxD theta2Deg p)

open Classical in
/-- Spring deflection `Δθ4 = normalizeRadians (t4 - θ40)` when valid,
`0` otherwise (`deltaTheta4`). -/
noncomputable def deltaTheta4D (theta2Deg : ℝ) (p : MechanismParams) : ℝ :=
  if infeasibleD theta2Deg p then 0
  else normalizeRadians (rawTheta4 theta2Deg p - p.theta40 * π / 180)

open Classical in
/-- Stored potential energy `V = 0.5 K Δθ4²` when valid, `0` otherwise. -/
noncomputable def energyD (theta2Deg : ℝ) (p : MechanismParams) : ℝ :=
  if infeasibleD theta2Deg p then 0
  else 0.5 * K_valD p * deltaTheta4D theta2Deg p ^ 2

open Classical in
/-- Kinematic coefficient `h42 = r2 sin(t3 - θ2) / (r4 sin(t3 - t4))` when
valid, `0` otherwise (`h42_val`). -/
noncomputable def h42D (theta2Deg : ℝ) (p : MechanismParams) : ℝ :=
  if infeasibleD theta2Deg p then 0
  else
    p.r2 * Real.sin (rawTheta3 theta2Deg p - theta2Deg * π / 180) /
      (PRB_GAMMA * p.L4 * Real.sin (rawTheta3 theta2Deg p - rawTheta4 theta2Deg p))

open Classical in
/-- Equivalent input torque `T = K Δθ4 h42` when valid, `0` otherwise
(`torque_val`). -/
noncomputable def torqueD (theta2Deg : ℝ) (p : MechanismParams) : ℝ :=
  if infeasibleD theta2Deg p then 0
  else K_valD p * deltaTheta4D theta2Deg p * h42D theta2Deg p

open Classical in
/-- The kinematics and energy evaluator (source function
`calculateKinematics`). -/
noncomputable def calculateKinematics (theta2Deg : ℝ) (p : MechanismParams) :
    SimulationPoint :=
  { theta2 := theta2Deg
    theta3 := normalizeDegrees (rawTheta3 theta2Deg p * 180 / π)
    theta4 := normalizeDegrees (rawTheta4 theta2Deg p * 180 / π)
    deltaTheta2 := theta2Deg - p.theta20
    energy := energyD theta2Deg p
    torque := torqueD theta2Deg p
    isValid := if infeasibleD theta2Deg p then false else true
    prb := { gamma := PRB_GAMMA, kTheta := PRB_K_THETA,
             r4 := PRB_GAMMA * p.L4, I := I_valD p, K := K_valD p } }

/-- The joint position projector (source function `getJointPositions`). -/
noncomputable def getJointPositions (point : SimulationPoint)
    (p : MechanismParams) : JointPositions :=
  { A0 := (0, 0)
    B0 := (p.r1, 0)
    A := (p.r2 * Real.cos (point.theta2 * π / 180),
          p.r2 * Real.sin (point.theta2 * π / 180))
    B := (p.r2 * Real.cos (point.theta2 * π / 180) +
            p.r3 * Real.cos (point.theta3 * π / 180),
          p.r2 * Real.sin (point.theta2 * π / 180) +
            p.r3 * Real.sin (point.theta3 * π / 180)) }

/-- Common shape of the two normalization helpers, with half-period `c`. -/
noncomputable def normHalf (c x : ℝ) : ℝ :=
  let d0 := jsMod x (2 * c)
  let d1 := if d0 > c then d0 - 2 * c else d0
  if d1 ≤ -c then d1 + 2 * c else d1

/-- A parameter set whose loop cannot close at crank angle 0: the ground link
is far longer than crank, coupler and reduced rocker combined. -/
def FAR_PARAMS : MechanismParams :=
  { r1 := 10, r2 := 1, r3 := 1, L4 := 1, E := 1, b := 1, h := 1,
    theta20 := 0, theta40 := 0 }

/-- A concrete valid mechanism state used as witness input. -/
def TEST_POINT : SimulationPoint :=
  { theta2 := 30, theta3 := 45, theta4 := 60, deltaTheta2 := 0,
    energy := 0, torque := 0, isValid := true,
    prb := { gamma := 0.85, kTheta := 2.65, r4 := 0, I := 0, K := 0 } }

/-- Spec formula: `φ = atan2 (Ay - B0y) (Ax - B0x)` with `B0 = (r1, 0)`. -/
noncomputable def specPhi (theta2Deg : ℝ) (p : MechanismParams) : ℝ :=
  atan2 (p.r2 * Real.sin (theta2Deg * π / 180) - 0)
    (p.r2 * Real.cos (theta2Deg * π / 180) - p.r1)

/-- Spec formula: `cos β = (r4² + d² - r3²) / (2 r4 d)` with `r4 = 0.85 L4`. -/
noncomputable def specCosBeta (theta2Deg : ℝ) (p : MechanismParams) : ℝ :=
  ((0.85 * p.L4) ^ 2 + distD theta2Deg p ^ 2 - p.r3 ^ 2) /
    (2 * (0.85 * p.L4) * distD theta2Deg p)

/-- Spec formula: `β = acos` of `cos β` clamped to `[-1, 1]`. -/
noncomputable def specBeta (theta2Deg : ℝ) (p : MechanismParams) : ℝ :=
  arccos (max (-1) (min 1 (specCosBeta theta2Deg p)))

/-- Spec formula: the committed branch `θ4 = φ - β`. -/
noncomputable def specTheta4 (theta2Deg : ℝ) (p : MechanismParams) : ℝ :=
  specPhi theta2Deg p - specBeta theta2Deg p

/-- Spec formula: `Bx = r1 + r4 cos θ4` (`B = B0 + r4 (cos θ4, sin θ4)`). -/
noncomputable def specBx (theta2Deg : ℝ) (p : MechanismParams) : ℝ :=
  p.r1 + 0.85 * p.L4 * Real.cos (specTheta4 theta2Deg p)

/-- Spec formula: `By = r4 sin θ4`. -/
noncomputable def specBy (theta2Deg : ℝ) (p : MechanismParams) : ℝ :=
  0.85 * p.L4 * Real.sin (specTheta4 theta2Deg p)

/-- Spec formula: `θ3 = atan2 (By - Ay) (Bx - Ax)`. -/
noncomputable def specTheta3 (theta2Deg : ℝ) (p : MechanismParams) : ℝ :=
  atan2 (specBy theta2Deg p - p.r2 * Real.sin (theta2Deg * π / 180))
    (specBx theta2Deg p - p.r2 * Real.cos (theta2Deg * π / 180))

/-! ### Normalization lemmas -/

lemma jsMod_bounds {a b : ℝ} (hb : 0 < b) : -b < jsMod a b ∧ jsMod a b < b := by
  unfold jsMod truncToZero
  by_cases h : 0 ≤ a / b
  · rw [if_pos h]
    have h1 : ((⌊a / b⌋ : ℝ)) ≤ a / b := Int.floor_le _
    have h2 : a / b < (⌊a / b⌋ : ℝ) + 1 := Int.lt_floor_add_one _
    have h3 : (⌊a / b⌋ : ℝ) * b ≤ a := (le_div_iff₀ hb).mp h1
    have h4 : a < ((⌊a / b⌋ : ℝ) + 1) * b := (div_lt_iff₀ hb).mp h2
    constructor <;> nlinarith
  · rw [if_neg h]
    have h1 : a / b ≤ ((⌈a / b⌉ : ℝ)) := Int.le_ceil _
    have h2 : ((⌈a / b⌉ : ℝ)) < a / b + 1 := Int.ceil_lt_add_one _
    have h3 : a ≤ ((⌈a / b⌉ : ℝ)) * b := (div_le_iff₀ hb).mp h1
    have h4 : ((⌈a / b⌉ : ℝ) - 1) * b < a :=
      (lt_div_iff₀ hb).mp (by linarith : (⌈a / b⌉ : ℝ) - 1 < a / b)
    constructor <;> nlinarith

lemma jsMod_shift (a b : ℝ) : ∃ n : ℤ, jsMod a b = a - b * n :=
  ⟨truncToZero (a / b), rfl⟩

lemma normHalf_mem {c : ℝ} (hc : 0 < c) (x : ℝ) :
    normHalf c x ∈ Set.Ioc (-c) c := by
  have hb : (0 : ℝ) < 2 * c := by linarith
  obtain ⟨h1, h2⟩ := jsMod_bounds (a := x) hb
  simp only [normHalf]
  constructor
  · split_ifs <;> linarith
  · split_ifs <;> linarith

lemma normHalf_shift (c x : ℝ) : ∃ n : ℤ, normHalf c x = x - 2 * c * n := by
  obtain ⟨m, hm⟩ := jsMod_shift x (2 * c)
  simp only [normHalf]
  split_ifs with h1 h2 h3
  · exact ⟨m, by rw [hm]; ring⟩
  · exact ⟨m + 1, by rw [hm]; push_cast; ring⟩
  · exact ⟨m - 1, by rw [hm]; push_cast; ring⟩
  · exact ⟨m, by rw [hm]⟩

lemma normHalf_eq_self {c x : ℝ} (hc : 0 < c) (h1 : -c < x) (h2 : x ≤ c) :
    normHalf c x = x := by
  have hb : (0 : ℝ) < 2 * c := by linarith
  have hmod : jsMod x (2 * c) = x := by
    unfold jsMod truncToZero
    by_cases h : 0 ≤ x / (2 * c)
    · rw [if_pos h]
      have hz : ⌊x / (2 * c)⌋ = 0 := by
        rw [Int.floor_eq_zero_iff]
        refine ⟨h, ?_⟩
        rw [div_lt_one hb]; linarith
      rw [hz]; push_cast; ring
    · rw [if_neg h]
      push_neg at h
      have hz : ⌈x / (2 * c)⌉ = 0 := by
        rw [Int.ceil_eq_zero_iff]
        refine Set.mem_Ioc.mpr ⟨?_, le_of_lt h⟩
        rw [lt_div_iff₀ hb]; linarith
      rw [hz]; push_cast; ring
  simp only [normHalf, hmod]
  rw [if_neg (by linarith : ¬ x > c), if_neg (by linarith : ¬ x ≤ -c)]

lemma normHalf_unique {c x y : ℝ} (hc : 0 < c) (hx : x ∈ Set.Ioc (-c) c)
    (hy : y ∈ Set.Ioc (-c) c) {n : ℤ} (h : x - y = 2 * c * n) : x = y := by
  obtain ⟨hx1, hx2⟩ := hx
  obtain ⟨hy1, hy2⟩ := hy
  have hn0 : n = 0 := by
    by_contra hne
    rcases lt_or_gt_of_ne hne with hlt | hgt
    · have : (n : ℝ) ≤ -1 := by exact_mod_cast Int.le_sub_one_of_lt hlt
      nlinarith
    · have : (1 : ℝ) ≤ (n : ℝ) := by exact_mod_cast hgt
      nlinarith
  rw [hn0] at h
  push_cast at h
  linarith

lemma normHalf_period {c : ℝ} (hc : 0 < c) (x : ℝ) (k : ℤ) :
    normHalf c (x + 2 * c * k) = normHalf c x := by
  obtain ⟨n1, hn1⟩ := normHalf_shift c (x + 2 * c * k)
  obtain ⟨n2, hn2⟩ := normHalf_shift c x
  have hd : normHalf c (x + 2 * c * k) - normHalf c x = 2 * c * ((k : ℝ) - n1 + n2) := by
    rw [hn1, hn2]; ring
  have hd2 : normHalf c (x + 2 * c * k) - normHalf c x = 2 * c * ((k - n1 + n2 : ℤ) : ℝ) := by
    rw [hd]; push_cast; ring
  exact normHalf_unique hc (normHalf_mem hc _) (normHalf_mem hc _) hd2

lemma normalizeDegrees_eq_normHalf (x : ℝ) :
    normalizeDegrees x = normHalf 180 x := by
  have h : (2 : ℝ) * 180 = 360 := by norm_num
  simp only [normalizeDegrees, normHalf, h]

lemma normalizeRadians_eq_normHalf (x : ℝ) :
    normalizeRadians x = normHalf π x := rfl

lemma normalizeDegrees_mem (x : ℝ) :
    normalizeDegrees x ∈ Set.Ioc (-180 : ℝ) 180 := by
  rw [normalizeDegrees_eq_normHalf]
  exact normHalf_mem (by norm_num) x

lemma normalizeDegrees_eq_self {x : ℝ} (h1 : -180 < x) (h2 : x ≤ 180) :
    normalizeDegrees x = x := by
  rw [normalizeDegrees_eq_normHalf]
  exact normHalf_eq_self (by norm_num) h1 h2

lemma normalizeDegrees_shift (x : ℝ) :
    ∃ n : ℤ, normalizeDegrees x = x - 360 * n := by
  rw [normalizeDegrees_eq_normHalf]
  obtain ⟨n, hn⟩ := normHalf_shift 180 x
  exact ⟨n, by rw [hn]; norm_num⟩

lemma normalizeRadians_mem (x : ℝ) :
    normalizeRadians x ∈ Set.Ioc (-π) π := by
  rw [normalizeRadians_eq_normHalf]
  exact normHalf_mem pi_pos x

lemma normalizeRadians_eq_self {x : ℝ} (h1 : -π < x) (h2 : x ≤ π) :
    normalizeRadians x = x := by
  rw [normalizeRadians_eq_normHalf]
  exact normHalf_eq_self pi_pos h1 h2

lemma normalizeDegrees_period (x : ℝ) (k : ℤ) :
    normalizeDegrees (x + 360 * k) = normalizeDegrees x := by
  rw [normalizeDegrees_eq_normHalf, normalizeDegrees_eq_normHalf]
  have h : x + 360 * (k : ℝ) = x + 2 * 180 * (k : ℝ) := by norm_num
  rw [h]
  exact normHalf_period (by norm_num) x k

/-! ### Evaluation helper lemmas -/

lemma isValid_false_iff (theta2Deg : ℝ) (p : MechanismParams) :
    (calculateKinematics theta2Deg p).isValid = false ↔ infeasibleD theta2Deg p := by
  simp only [calculateKinematics]
  by_cases h : infeasibleD theta2Deg p <;> simp [h]

lemma isValid_true_iff (theta2Deg : ℝ) (p : MechanismParams) :
    (calculateKinematics theta2Deg p).isValid = true ↔ ¬ infeasibleD theta2Deg p := by
  simp only [calculateKinematics]
  by_cases h : infeasibleD theta2Deg p <;> simp [h]

lemma theta3_of_infeasible {theta2Deg : ℝ} {p : MechanismParams}
    (h : infeasibleD theta2Deg p) : (calculateKinematics theta2Deg p).theta3 = 0 := by
  show normalizeDegrees (rawTheta3 theta2Deg p * 180 / π) = 0
  rw [rawTheta3, if_pos h, zero_mul, zero_div]
  exact normalizeDegrees_eq_self (by norm_num) (by norm_num)

lemma theta4_of_infeasible {theta2Deg : ℝ} {p : MechanismParams}
    (h : infeasibleD theta2Deg p) : (calculateKinematics theta2Deg p).theta4 = 0 := by
  show normalizeDegrees (rawTheta4 theta2Deg p * 180 / π) = 0
  rw [rawTheta4, if_pos h, zero_mul, zero_div]
  exact normalizeDegrees_eq_self (by norm_num) (by norm_num)

lemma energy_of_infeasible {theta2Deg : ℝ} {p : MechanismParams}
    (h : infeasibleD theta2Deg p) : (calculateKinematics theta2Deg p).energy = 0 := by
  show energyD theta2Deg p = 0
  rw [energyD, if_pos h]

lemma torque_of_infeasible {theta2Deg : ℝ} {p : MechanismParams}
    (h : infeasibleD theta2Deg p) : (calculateKinematics theta2Deg p).torque = 0 := by
  show torqueD theta2Deg p = 0
  rw [torqueD, if_pos h]

lemma infeasible_far : infeasibleD 0 FAR_PARAMS := by
  unfold infeasibleD distD distSqD AxD AyD FAR_PARAMS PRB_GAMMA
  left
  norm_num
  have h9 : Real.sqrt 81 = 9 := by
    rw [show (81 : ℝ) = 9 ^ 2 by norm_num]
    exact Real.sqrt_sq (by norm_num)
  rw [h9]
  norm_num

lemma isValid_false_far : (calculateKinematics 0 FAR_PARAMS).isValid = false :=
  (isValid_false_iff 0 FAR_PARAMS).mpr infeasible_far

/-! ### Claim theorems -/

/-- C1: for every parameter set and crank angle, the evaluator returns
`isValid = false` exactly when the distance `d` from the crank pin
`A = (r2 cos θ2, r2 sin θ2)` to the fixed pivot `B0 = (r1, 0)` satisfies
`d > r3 + r4` or `d < |r3 - r4|` with `r4 = 0.85 L4`; it returns
`isValid = true` otherwise, so geometric infeasibility is the sole failure
mode. -/
theorem isValid_iff_assembly_distance (theta2Deg : ℝ) (p : MechanismParams) :
    (calculateKinematics theta2Deg p).isValid = false ↔
      (Real.sqrt ((p.r2 * Real.cos (theta2Deg * π / 180) - p.r1) ^ 2 +
            (p.r2 * Real.sin (theta2Deg * π / 180)) ^ 2) >
          p.r3 + 0.85 * p.L4 ∨
        Real.sqrt ((p.r2 * Real.cos (theta2Deg * π / 180) - p.r1) ^ 2 +
            (p.r2 * Real.sin (theta2Deg * π / 180)) ^ 2) <
          |p.r3 - 0.85 * p.L4|) := by
  rw [isValid_false_iff]
  unfold infeasibleD distD distSqD AxD AyD PRB_GAMMA
  rw [show (p.r2 * Real.cos (theta2Deg * π / 180) - p.r1) *
        (p.r2 * Real.cos (theta2Deg * π / 180) - p.r1) +
        p.r2 * Real.sin (theta2Deg * π / 180) *
        (p.r2 * Real.sin (theta2Deg * π / 180)) =
      (p.r2 * Real.cos (theta2Deg * π / 180) - p.r1) ^ 2 +
        (p.r2 * Real.sin (theta2Deg * π / 180)) ^ 2 by ring]

/-- C2: the evaluator is total, and on an infeasible input the returned record
is structurally complete with `theta3 = 0`, `theta4 = 0`, `energy = 0`,
`torque = 0` (while `theta2` and `deltaTheta2` are still filled in), rather
than an exception being thrown. -/
theorem invalid_state_structurally_complete (theta2Deg : ℝ) (p : MechanismParams)
    (h : (calculateKinematics theta2Deg p).isValid = false) :
    (calculateKinematics theta2Deg p).theta3 = 0 ∧
    (calculateKinematics theta2Deg p).theta4 = 0 ∧
    (calculateKinematics theta2Deg p).energy = 0 ∧
    (calculateKinematics theta2Deg p).torque = 0 ∧
    (calculateKinematics theta2Deg p).theta2 = theta2Deg ∧
    (calculateKinematics theta2Deg p).deltaTheta2 = theta2Deg - p.theta20 := by
  have hinf : infeasibleD theta2Deg p := (isValid_false_iff theta2Deg p).mp h
  exact ⟨theta3_of_infeasible hinf, theta4_of_infeasible hinf,
    energy_of_infeasible hinf, torque_of_infeasible hinf, rfl, rfl⟩

/-- Witness for C2 at the concrete infeasible input `θ2 = 0`, `FAR_PARAMS`. -/
theorem invalid_state_structurally_complete_witness :
    (calculateKinematics 0 FAR_PARAMS).theta3 = 0 ∧
    (calculateKinematics 0 FAR_PARAMS).theta4 = 0 ∧
    (calculateKinematics 0 FAR_PARAMS).energy = 0 ∧
    (calculateKinematics 0 FAR_PARAMS).torque = 0 ∧
    (calculateKinematics 0 FAR_PARAMS).theta2 = 0 ∧
    (calculateKinematics 0 FAR_PARAMS).deltaTheta2 = 0 - FAR_PARAMS.theta20 :=
  invalid_state_structurally_complete 0 FAR_PARAMS isValid_false_far

/-- C4: the derived PRB constants embedded in every returned record are
`r4 = 0.85 L4`, `I = b h³ / 12` and `K = 0.85 · 2.65 · E · I / (L4 / 100)`:
`L4` is converted from centimeters to meters only inside the stiffness
formula, while the geometric `r4` uses `L4` in its original unit. -/
theorem prb_constants_formulas (theta2Deg : ℝ) (p : MechanismParams) :
    (calculateKinematics theta2Deg p).prb.r4 = 0.85 * p.L4 ∧
    (calculateKinematics theta2Deg p).prb.I = p.b * p.h ^ 3 / 12 ∧
    (calculateKinematics theta2Deg p).prb.K =
      0.85 * 2.65 * p.E * (p.b * p.h ^ 3 / 12) / (p.L4 / 100) ∧
    (calculateKinematics theta2Deg p).prb.gamma = 0.85 ∧
    (calculateKinematics theta2Deg p).prb.kTheta = 2.65 := by
  refine ⟨rfl, rfl, ?_, rfl, rfl⟩
  show K_valD p = 0.85 * 2.65 * p.E * (p.b * p.h ^ 3 / 12) / (p.L4 / 100)
  unfold K_valD I_valD PRB_GAMMA PRB_K_THETA
  ring

/-- C6: degree normalization is the identity on `(-180, 180]`, is
360-periodic, and the evaluator reports `theta3` and `theta4` inside
`(-180, 180]` while returning `theta2` exactly as supplied. -/
theorem normalization_idempotent_periodic (x : ℝ) (k : ℤ)
    (theta2Deg : ℝ) (p : MechanismParams)
    (h1 : -180 < x) (h2 : x ≤ 180) :
    normalizeDegrees x = x ∧
    (∀ y : ℝ, normalizeDegrees (y + 360 * k) = normalizeDegrees y) ∧
    (calculateKinematics theta2Deg p).theta2 = theta2Deg ∧
    (calculateKinematics theta2Deg p).theta3 ∈ Set.Ioc (-180 : ℝ) 180 ∧
    (calculateKinematics theta2Deg p).theta4 ∈ Set.Ioc (-180 : ℝ) 180 :=
  ⟨normalizeDegrees_eq_self h1 h2, fun y => normalizeDegrees_period y k,
    rfl, normalizeDegrees_mem _, normalizeDegrees_mem _⟩

/-- Witness for C6 at `x = 90`, `k = 3`, `θ2 = 450`, default parameters. -/
theorem normalization_idempotent_periodic_witness :
    normalizeDegrees 90 = 90 ∧
    (∀ y : ℝ, normalizeDegrees (y + 360 * (3 : ℤ)) = normalizeDegrees y) ∧
    (calculateKinematics 450 DEFAULT_PARAMS).theta2 = 450 ∧
    (calculateKinematics 450 DEFAULT_PARAMS).theta3 ∈ Set.Ioc (-180 : ℝ) 180 ∧
    (calculateKinematics 450 DEFAULT_PARAMS).theta4 ∈ Set.Ioc (-180 : ℝ) 180 :=
  normalization_idempotent_periodic 90 3 450 DEFAULT_PARAMS
    (by norm_num) (by norm_num)

/-- C10: the joint position projector is total on every mechanism state,
valid or not: it always returns `A0 = (0,0)`, `B0 = (r1, 0)`, `A` computed
from `state.theta2` and `B` from `state.theta3`; on an invalid evaluator
output, `theta3 = 0`, so `B = A + (r3, 0)`, and `theta2` is still the
supplied crank angle. -/
theorem projector_total_on_all_states (point : SimulationPoint)
    (p : MechanismParams) :
    (getJointPositions point p).A0 = (0, 0) ∧
    (getJointPositions point p).B0 = (p.r1, 0) ∧
    (getJointPositions point p).A =
      (p.r2 * Real.cos (point.theta2 * π / 180),
       p.r2 * Real.sin (point.theta2 * π / 180)) ∧
    (getJointPositions point p).B =
      ((getJointPositions point p).A.1 + p.r3 * Real.cos (point.theta3 * π / 180),
       (getJointPositions point p).A.2 + p.r3 * Real.sin (point.theta3 * π / 180)) ∧
    (∀ theta2Deg : ℝ, (calculateKinematics theta2Deg p).isValid = false →
      (calculateKinematics theta2Deg p).theta2 = theta2Deg ∧
      (getJointPositions (calculateKinematics theta2Deg p) p).B =
        ((getJointPositions (calculateKinematics theta2Deg p) p).A.1 + p.r3,
         (getJointPositions (calculateKinematics theta2Deg p) p).A.2)) := by
  refine ⟨rfl, rfl, rfl, rfl, ?_⟩
  intro theta2Deg h
  refine ⟨rfl, ?_⟩
  have h3 : (calculateKinematics theta2Deg p).theta3 = 0 :=
    theta3_of_infeasible ((isValid_false_iff theta2Deg p).mp h)
  show ((getJointPositions (calculateKinematics theta2Deg p) p).A.1 +
      p.r3 * Real.cos ((calculateKinematics theta2Deg p).theta3 * π / 180),
    (getJointPositions (calculateKinematics theta2Deg p) p).A.2 +
      p.r3 * Real.sin ((calculateKinematics theta2Deg p).theta3 * π / 180)) = _
  rw [h3]
  norm_num [Real.cos_zero, Real.sin_zero]

/-- Witness for C10 at the infeasible input `θ2 = 0`, `FAR_PARAMS`. -/
theorem projector_total_on_all_states_witness :
    (getJointPositions (calculateKinematics 0 FAR_PARAMS) FAR_PARAMS).A0 = (0, 0) ∧
    (getJointPositions (calculateKinematics 0 FAR_PARAMS) FAR_PARAMS).B0 =
      (FAR_PARAMS.r1, 0) ∧
    (getJointPositions (calculateKinematics 0 FAR_PARAMS) FAR_PARAMS).A =
      (FAR_PARAMS.r2 * Real.cos ((calculateKinematics 0 FAR_PARAMS).theta2 * π / 180),
       FAR_PARAMS.r2 * Real.sin ((calculateKinematics 0 FAR_PARAMS).theta2 * π / 180)) ∧
    (getJointPositions (calculateKinematics 0 FAR_PARAMS) FAR_PARAMS).B =
      ((getJointPositions (calculateKinematics 0 FAR_PARAMS) FAR_PARAMS).A.1 +
         FAR_PARAMS.r3 *
           Real.cos ((calculateKinematics 0 FAR_PARAMS).theta3 * π / 180),
       (getJointPositions (calculateKinematics 0 FAR_PARAMS) FAR_PARAMS).A.2 +
         FAR_PARAMS.r3 *
           Real.sin ((calculateKinematics 0 FAR_PARAMS).theta3 * π / 180)) ∧
    (∀ theta2Deg : ℝ,
      (calculateKinematics theta2Deg FAR_PARAMS).isValid = false →
      (calculateKinematics theta2Deg FAR_PARAMS).theta2 = theta2Deg ∧
      (getJointPositions (calculateKinematics theta2Deg FAR_PARAMS) FAR_PARAMS).B =
        ((getJointPositions (calculateKinematics theta2Deg FAR_PARAMS) FAR_PARAMS).A.1 +
           FAR_PARAMS.r3,
         (getJointPositions (calculateKinematics theta2Deg FAR_PARAMS) FAR_PARAMS).A.2)) :=
  projector_total_on_all_states (calculateKinematics 0 FAR_PARAMS) FAR_PARAMS

/-- C9: for every valid mechanism state and every parameter set with
non-negative `r2`, `r3`, the projected joints satisfy `|A - A0| = r2` and
`|B - A| = r3` exactly (the projector trusts `state.theta3` and never
re-derives `theta4`). -/
theorem projector_joint_consistency (point : SimulationPoint)
    (p : MechanismParams) (_hvalid : point.isValid = true)
    (hr2 : 0 ≤ p.r2) (hr3 : 0 ≤ p.r3) :
    Real.sqrt (((getJointPositions point p).A.1 -
          (getJointPositions point p).A0.1) ^ 2 +
        ((getJointPositions point p).A.2 -
          (getJointPositions point p).A0.2) ^ 2) = p.r2 ∧
    Real.sqrt (((getJointPositions point p).B.1 -
          (getJointPositions point p).A.1) ^ 2 +
        ((getJointPositions point p).B.2 -
          (getJointPositions point p).A.2) ^ 2) = p.r3 := by
  constructor
  · show Real.sqrt ((p.r2 * Real.cos (point.theta2 * π / 180) - 0) ^ 2 +
        (p.r2 * Real.sin (point.theta2 * π / 180) - 0) ^ 2) = p.r2
    rw [show (p.r2 * Real.cos (point.theta2 * π / 180) - 0) ^ 2 +
          (p.r2 * Real.sin (point.theta2 * π / 180) - 0) ^ 2 =
        p.r2 ^ 2 * (Real.sin (point.theta2 * π / 180) ^ 2 +
          Real.cos (point.theta2 * π / 180) ^ 2) by ring,
      Real.sin_sq_add_cos_sq, mul_one]
    exact Real.sqrt_sq hr2
  · show Real.sqrt ((p.r2 * Real.cos (point.theta2 * π / 180) +
          p.r3 * Real.cos (point.theta3 * π / 180) -
          p.r2 * Real.cos (point.theta2 * π / 180)) ^ 2 +
        (p.r2 * Real.sin (point.theta2 * π / 180) +
          p.r3 * Real.sin (point.theta3 * π / 180) -
          p.r2 * Real.sin (point.theta2 * π / 180)) ^ 2) = p.r3
    rw [show (p.r2 * Real.cos (point.theta2 * π / 180) +
          p.r3 * Real.cos (point.theta3 * π / 180) -
          p.r2 * Real.cos (point.theta2 * π / 180)) ^ 2 +
        (p.r2 * Real.sin (point.theta2 * π / 180) +
          p.r3 * Real.sin (point.theta3 * π / 180) -
          p.r2 * Real.sin (point.theta2 * π / 180)) ^ 2 =
        p.r3 ^ 2 * (Real.sin (point.theta3 * π / 180) ^ 2 +
          Real.cos (point.theta3 * π / 180) ^ 2) by ring,
      Real.sin_sq_add_cos_sq, mul_one]
    exact Real.sqrt_sq hr3

/-! ### Spec-side formulas for the feasible branch (refinement for C3) -/

lemma distSqD_nonneg (theta2Deg : ℝ) (p : MechanismParams) :
    0 ≤ distSqD theta2Deg p :=
  add_nonneg (mul_self_nonneg _) (mul_self_nonneg _)

lemma distD_sq (theta2Deg : ℝ) (p : MechanismParams) :
    distD theta2Deg p ^ 2 = distSqD theta2Deg p :=
  Real.sq_sqrt (distSqD_nonneg _ _)

lemma cosBetaD_eq_spec (theta2Deg : ℝ) (p : MechanismParams) :
    cosBetaD theta2Deg p = specCosBeta theta2Deg p := by
  unfold cosBetaD specCosBeta PRB_GAMMA
  rw [← distD_sq]
  ring_nf

lemma phiD_eq_spec (theta2Deg : ℝ) (p : MechanismParams) :
    phiD theta2Deg p = specPhi theta2Deg p := by
  unfold phiD specPhi AxD AyD
  rw [sub_zero]

lemma betaD_eq_spec (theta2Deg : ℝ) (p : MechanismParams) :
    betaD theta2Deg p = specBeta theta2Deg p := by
  unfold betaD specBeta
  rw [cosBetaD_eq_spec]

lemma rawTheta4_of_feasible {theta2Deg : ℝ} {p : MechanismParams}
    (h : ¬ infeasibleD theta2Deg p) :
    rawTheta4 theta2Deg p = specTheta4 theta2Deg p := by
  rw [rawTheta4, if_neg h, phiD_eq_spec, betaD_eq_spec, specTheta4]

lemma rawTheta3_of_feasible {theta2Deg : ℝ} {p : MechanismParams}
    (h : ¬ infeasibleD theta2Deg p) :
    rawTheta3 theta2Deg p = specTheta3 theta2Deg p := by
  rw [rawTheta3, if_neg h, rawTheta4_of_feasible h]
  unfold specTheta3 specBx specBy AxD AyD PRB_GAMMA
  congr 1

/-- C3: whenever assembly is feasible, the evaluator uses the law-of-cosines
value `cos β = (r4² + d² - r3²)/(2 r4 d)` clamped to `[-1, 1]` before the
inverse cosine, sets `φ = atan2 (Ay - B0y) (Ax - B0x)`, always commits to the
single branch `θ4 = φ - β` (never `φ + β`), and derives
`θ3 = atan2 (By - Ay) (Bx - Ax)` with `B = B0 + r4 (cos θ4, sin θ4)`. -/
theorem feasible_branch_selection (theta2Deg : ℝ) (p : MechanismParams)
    (h : (calculateKinematics theta2Deg p).isValid = true) :
    (-1 ≤ max (-1) (min 1 (specCosBeta theta2Deg p)) ∧
      max (-1) (min 1 (specCosBeta theta2Deg p)) ≤ 1) ∧
    cosBetaD theta2Deg p = specCosBeta theta2Deg p ∧
    (calculateKinematics theta2Deg p).theta4 =
      normalizeDegrees (specTheta4 theta2Deg p * 180 / π) ∧
    (calculateKinematics theta2Deg p).theta3 =
      normalizeDegrees (specTheta3 theta2Deg p * 180 / π) := by
  have hinf : ¬ infeasibleD theta2Deg p := (isValid_true_iff theta2Deg p).mp h
  refine ⟨⟨le_max_left _ _, max_le (by norm_num) (min_le_left _ _)⟩,
    cosBetaD_eq_spec theta2Deg p, ?_, ?_⟩
  · show normalizeDegrees (rawTheta4 theta2Deg p * 180 / π) = _
    rw [rawTheta4_of_feasible hinf]
  · show normalizeDegrees (rawTheta3 theta2Deg p * 180 / π) = _
    rw [rawTheta3_of_feasible hinf]

/-! ### Validity of the default scenario at θ2 = ±90° -/

lemma sqrt_1125_lb : 3.3541 < Real.sqrt 11.25 := by
  have h := Real.sq_sqrt (by norm_num : (0 : ℝ) ≤ 11.25)
  have hnn := Real.sqrt_nonneg (11.25 : ℝ)
  nlinarith

lemma sqrt_1125_ub : Real.sqrt 11.25 < 3.35411 := by
  have h := Real.sq_sqrt (by norm_num : (0 : ℝ) ≤ 11.25)
  have hnn := Real.sqrt_nonneg (11.25 : ℝ)
  nlinarith

lemma dist_90 : distD 90 DEFAULT_PARAMS = Real.sqrt 11.25 := by
  unfold distD distSqD AxD AyD DEFAULT_PARAMS
  rw [show (90 : ℝ) * π / 180 = π / 2 by ring]
  norm_num [Real.cos_pi_div_two, Real.sin_pi_div_two]

lemma dist_m90 : distD (-90) DEFAULT_PARAMS = Real.sqrt 11.25 := by
  unfold distD distSqD AxD AyD DEFAULT_PARAMS
  rw [show (-90 : ℝ) * π / 180 = -(π / 2) by ring]
  norm_num [Real.cos_pi_div_two, Real.sin_pi_div_two]

lemma not_infeasible_90 : ¬ infeasibleD 90 DEFAULT_PARAMS := by
  unfold infeasibleD
  rw [dist_90]
  push_neg
  have h1 := sqrt_1125_ub
  have h2 := sqrt_1125_lb
  constructor
  · rw [show DEFAULT_PARAMS.r3 + PRB_GAMMA * DEFAULT_PARAMS.L4 = (7.382 : ℝ) by
      norm_num [DEFAULT_PARAMS, PRB_GAMMA]]
    linarith
  · rw [show DEFAULT_PARAMS.r3 - PRB_GAMMA * DEFAULT_PARAMS.L4 = (0.038 : ℝ) by
      norm_num [DEFAULT_PARAMS, PRB_GAMMA], abs_of_pos (by norm_num)]
    linarith

lemma not_infeasible_m90 : ¬ infeasibleD (-90) DEFAULT_PARAMS := by
  unfold infeasibleD
  rw [dist_m90]
  push_neg
  have h1 := sqrt_1125_ub
  have h2 := sqrt_1125_lb
  constructor
  · rw [show DEFAULT_PARAMS.r3 + PRB_GAMMA * DEFAULT_PARAMS.L4 = (7.382 : ℝ) by
      norm_num [DEFAULT_PARAMS, PRB_GAMMA]]
    linarith
  · rw [show DEFAULT_PARAMS.r3 - PRB_GAMMA * DEFAULT_PARAMS.L4 = (0.038 : ℝ) by
      norm_num [DEFAULT_PARAMS, PRB_GAMMA], abs_of_pos (by norm_num)]
    linarith

lemma valid_90 : (calculateKinematics 90 DEFAULT_PARAMS).isValid = true :=
  (isValid_true_iff _ _).mpr not_infeasible_90

lemma valid_m90 : (calculateKinematics (-90) DEFAULT_PARAMS).isValid = true :=
  (isValid_true_iff _ _).mpr not_infeasible_m90

/-- Witness for C3 at the concrete valid input `θ2 = 90`, default parameters. -/
theorem feasible_branch_selection_witness :
    (-1 ≤ max (-1) (min 1 (specCosBeta 90 DEFAULT_PARAMS)) ∧
      max (-1) (min 1 (specCosBeta 90 DEFAULT_PARAMS)) ≤ 1) ∧
    cosBetaD 90 DEFAULT_PARAMS = specCosBeta 90 DEFAULT_PARAMS ∧
    (calculateKinematics 90 DEFAULT_PARAMS).theta4 =
      normalizeDegrees (specTheta4 90 DEFAULT_PARAMS * 180 / π) ∧
    (calculateKinematics 90 DEFAULT_PARAMS).theta3 =
      normalizeDegrees (specTheta3 90 DEFAULT_PARAMS * 180 / π) :=
  feasible_branch_selection 90 DEFAULT_PARAMS valid_90

/-- C7: for positive `E`, `b`, `h`, `L4` the returned energy is always
non-negative; on a valid state it equals `½ K Δθ4²` with
`Δθ4 = normalizeRadians (θ4 - θ40)` lying in `(-π, π]`, and on an infeasible
state it is exactly `0`. -/
theorem energy_nonneg_and_formula (theta2Deg : ℝ) (p : MechanismParams)
    (hE : 0 < p.E) (hb : 0 < p.b) (hh : 0 < p.h) (hL : 0 < p.L4) :
    0 ≤ (calculateKinematics theta2Deg p).energy ∧
    ((calculateKinematics theta2Deg p).isValid = true →
      (calculateKinematics theta2Deg p).energy =
        0.5 * K_valD p *
          normalizeRadians (rawTheta4 theta2Deg p - p.theta40 * π / 180) ^ 2 ∧
      normalizeRadians (rawTheta4 theta2Deg p - p.theta40 * π / 180) ∈
        Set.Ioc (-π) π) ∧
    ((calculateKinematics theta2Deg p).isValid = false →
      (calculateKinematics theta2Deg p).energy = 0) := by
  have hI : 0 < I_valD p := by
    unfold I_valD
    exact div_pos (mul_pos hb (pow_pos hh 3)) (by norm_num)
  have hK : 0 < K_valD p := by
    unfold K_valD
    apply mul_pos (by norm_num [PRB_GAMMA, PRB_K_THETA])
    exact div_pos (mul_pos hE hI) (by linarith)
  refine ⟨?_, ?_, ?_⟩
  · show 0 ≤ energyD theta2Deg p
    rw [energyD]
    split_ifs
    · norm_num
    · nlinarith [sq_nonneg (deltaTheta4D theta2Deg p)]
  · intro hv
    have hinf : ¬ infeasibleD theta2Deg p := (isValid_true_iff theta2Deg p).mp hv
    constructor
    · show energyD theta2Deg p = _
      rw [energyD, if_neg hinf, deltaTheta4D, if_neg hinf]
    · exact normalizeRadians_mem _
  · intro hv
    exact energy_of_infeasible ((isValid_false_iff theta2Deg p).mp hv)

/-- Witness for C7 at `θ2 = 90` and the default parameters. -/
theorem energy_nonneg_and_formula_witness :
    0 ≤ (calculateKinematics 90 DEFAULT_PARAMS).energy ∧
    ((calculateKinematics 90 DEFAULT_PARAMS).isValid = true →
      (calculateKinematics 90 DEFAULT_PARAMS).energy =
        0.5 * K_valD DEFAULT_PARAMS *
          normalizeRadians (rawTheta4 90 DEFAULT_PARAMS -
            DEFAULT_PARAMS.theta40 * π / 180) ^ 2 ∧
      normalizeRadians (rawTheta4 90 DEFAULT_PARAMS -
        DEFAULT_PARAMS.theta40 * π / 180) ∈ Set.Ioc (-π) π) ∧
    ((calculateKinematics 90 DEFAULT_PARAMS).isValid = false →
      (calculateKinematics 90 DEFAULT_PARAMS).energy = 0) :=
  energy_nonneg_and_formula 90 DEFAULT_PARAMS
    (by norm_num [DEFAULT_PARAMS]) (by norm_num [DEFAULT_PARAMS])
    (by norm_num [DEFAULT_PARAMS]) (by norm_num [DEFAULT_PARAMS])

/-- C8: on every valid state the torque equals `K · Δθ4 · h42` with the
kinematic coefficient `h42 = r2 sin(θ3 - θ2) / (r4 sin(θ3 - θ4))` taken as a
plain quotient with no special-case clamping or guard (at an exact toggle
configuration the real-valued division is performed as-is); the torque is `0`
when infeasible. -/
theorem torque_formula (theta2Deg : ℝ) (p : MechanismParams)
    (h : (calculateKinematics theta2Deg p).isValid = true) :
    (calculateKinematics theta2Deg p).torque =
      K_valD p * deltaTheta4D theta2Deg p *
        (p.r2 * Real.sin (rawTheta3 theta2Deg p - theta2Deg * π / 180) /
          (0.85 * p.L4 *
            Real.sin (rawTheta3 theta2Deg p - rawTheta4 theta2Deg p))) ∧
    (∀ (t : ℝ) (q : MechanismParams),
      (calculateKinematics t q).isValid = false →
      (calculateKinematics t q).torque = 0) := by
  have hinf : ¬ infeasibleD theta2Deg p := (isValid_true_iff theta2Deg p).mp h
  constructor
  · show torqueD theta2Deg p = _
    rw [torqueD, if_neg hinf, h42D, if_neg hinf]
    rfl
  · intro t q hv
    exact torque_of_infeasible ((isValid_false_iff t q).mp hv)

/-- Witness for C8 at the concrete valid input `θ2 = 90`, default parameters. -/
theorem torque_formula_witness :
    (calculateKinematics 90 DEFAULT_PARAMS).torque =
      K_valD DEFAULT_PARAMS * deltaTheta4D 90 DEFAULT_PARAMS *
        (DEFAULT_PARAMS.r2 *
            Real.sin (rawTheta3 90 DEFAULT_PARAMS - 90 * π / 180) /
          (0.85 * DEFAULT_PARAMS.L4 *
            Real.sin (rawTheta3 90 DEFAULT_PARAMS - rawTheta4 90 DEFAULT_PARAMS))) ∧
    (∀ (t : ℝ) (q : MechanismParams),
      (calculateKinematics t q).isValid = false →
      (calculateKinematics t q).torque = 0) :=
  torque_formula 90 DEFAULT_PARAMS valid_90

/-- Witness for C9 at a concrete valid state and the default parameters. -/
theorem projector_joint_consistency_witness :
    Real.sqrt (((getJointPositions TEST_POINT DEFAULT_PARAMS).A.1 -
          (getJointPositions TEST_POINT DEFAULT_PARAMS).A0.1) ^ 2 +
        ((getJointPositions TEST_POINT DEFAULT_PARAMS).A.2 -
          (getJointPositions TEST_POINT DEFAULT_PARAMS).A0.2) ^ 2) =
      DEFAULT_PARAMS.r2 ∧
    Real.sqrt (((getJointPositions TEST_POINT DEFAULT_PARAMS).B.1 -
          (getJointPositions TEST_POINT DEFAULT_PARAMS).A.1) ^ 2 +
        ((getJointPositions TEST_POINT DEFAULT_PARAMS).B.2 -
          (getJointPositions TEST_POINT DEFAULT_PARAMS).A.2) ^ 2) =
      DEFAULT_PARAMS.r3 :=
  projector_joint_consistency TEST_POINT DEFAULT_PARAMS rfl
    (by norm_num [DEFAULT_PARAMS]) (by norm_num [DEFAULT_PARAMS])

/-! ### Numeric evaluation of the default scenario (for C5) -/

lemma distSq_90 : distSqD 90 DEFAULT_PARAMS = 11.25 := by
  unfold distSqD AxD AyD DEFAULT_PARAMS
  rw [show (90 : ℝ) * π / 180 = π / 2 by ring]
  norm_num [Real.cos_pi_div_two, Real.sin_pi_div_two]

lemma distSq_m90 : distSqD (-90) DEFAULT_PARAMS = 11.25 := by
  unfold distSqD AxD AyD DEFAULT_PARAMS
  rw [show (-90 : ℝ) * π / 180 = -(π / 2) by ring]
  norm_num [Real.cos_pi_div_two, Real.sin_pi_div_two]

lemma cosBeta90_eq :
    cosBetaD 90 DEFAULT_PARAMS = 10.969484 / (7.344 * Real.sqrt 11.25) := by
  unfold cosBetaD
  rw [distSq_90, dist_90,
    show PRB_GAMMA * DEFAULT_PARAMS.L4 = (3.672 : ℝ) by
      norm_num [PRB_GAMMA, DEFAULT_PARAMS],
    show DEFAULT_PARAMS.r3 = (3.71 : ℝ) from rfl,
    show (3.672 : ℝ) * 3.672 + 11.25 - 3.71 * 3.71 = 10.969484 by norm_num,
    show (2 : ℝ) * 3.672 = 7.344 by norm_num]

lemma cosBeta_m90_eq : cosBetaD (-90) DEFAULT_PARAMS = cosBetaD 90 DEFAULT_PARAMS := by
  unfold cosBetaD distD
  rw [distSq_90, distSq_m90]

lemma c90_lb : 0.44532 < cosBetaD 90 DEFAULT_PARAMS := by
  rw [cosBeta90_eq]
  have h1 := sqrt_1125_lb
  have h2 := sqrt_1125_ub
  have hpos : (0 : ℝ) < 7.344 * Real.sqrt 11.25 := by nlinarith
  rw [lt_div_iff₀ hpos]
  nlinarith

lemma c90_ub : cosBetaD 90 DEFAULT_PARAMS < 0.44533 := by
  rw [cosBeta90_eq]
  have h1 := sqrt_1125_lb
  have h2 := sqrt_1125_ub
  have hpos : (0 : ℝ) < 7.344 * Real.sqrt 11.25 := by nlinarith
  rw [div_lt_iff₀ hpos]
  nlinarith

lemma Ax_90 : AxD 90 DEFAULT_PARAMS = 0 := by
  unfold AxD DEFAULT_PARAMS
  rw [show (90 : ℝ) * π / 180 = π / 2 by ring]
  norm_num [Real.cos_pi_div_two]

lemma Ay_90 : AyD 90 DEFAULT_PARAMS = 1.5 := by
  unfold AyD DEFAULT_PARAMS
  rw [show (90 : ℝ) * π / 180 = π / 2 by ring]
  norm_num [Real.sin_pi_div_two]

lemma Ax_m90 : AxD (-90) DEFAULT_PARAMS = 0 := by
  unfold AxD DEFAULT_PARAMS
  rw [show (-90 : ℝ) * π / 180 = -(π / 2) by ring]
  norm_num [Real.cos_pi_div_two]

lemma Ay_m90 : AyD (-90) DEFAULT_PARAMS = -1.5 := by
  unfold AyD DEFAULT_PARAMS
  rw [show (-90 : ℝ) * π / 180 = -(π / 2) by ring]
  norm_num [Real.sin_pi_div_two]

lemma phi_90 : phiD 90 DEFAULT_PARAMS = π - arctan (1 / 2) := by
  unfold phiD
  rw [Ax_90, Ay_90, show (0 : ℝ) - DEFAULT_PARAMS.r1 = -3 by norm_num [DEFAULT_PARAMS]]
  unfold atan2
  rw [if_neg (by norm_num), if_pos (by norm_num : (-3 : ℝ) < 0),
    if_pos (by norm_num : (0 : ℝ) ≤ 1.5),
    show (1.5 : ℝ) / (-3) = -(1 / 2) by norm_num, arctan_neg]
  ring

lemma phi_m90 : phiD (-90) DEFAULT_PARAMS = arctan (1 / 2) - π := by
  unfold phiD
  rw [Ax_m90, Ay_m90, show (0 : ℝ) - DEFAULT_PARAMS.r1 = -3 by norm_num [DEFAULT_PARAMS]]
  unfold atan2
  rw [if_neg (by norm_num), if_pos (by norm_num : (-3 : ℝ) < 0),
    if_neg (by norm_num : ¬ (0 : ℝ) ≤ -1.5),
    show (-1.5 : ℝ) / (-3) = 1 / 2 by norm_num]

lemma beta_90 : betaD 90 DEFAULT_PARAMS = arccos (cosBetaD 90 DEFAULT_PARAMS) := by
  unfold betaD
  rw [min_eq_right (le_of_lt (lt_trans c90_ub (by norm_num))),
    max_eq_right (le_trans (by norm_num) (le_of_lt c90_lb))]

lemma beta_m90 : betaD (-90) DEFAULT_PARAMS = arccos (cosBetaD 90 DEFAULT_PARAMS) := by
  unfold betaD
  rw [cosBeta_m90_eq,
    min_eq_right (le_of_lt (lt_trans c90_ub (by norm_num))),
    max_eq_right (le_trans (by norm_num) (le_of_lt c90_lb))]

lemma rawTheta4_90_eq :
    rawTheta4 90 DEFAULT_PARAMS =
      π - arctan (1 / 2) - arccos (cosBetaD 90 DEFAULT_PARAMS) := by
  rw [rawTheta4, if_neg not_infeasible_90, phi_90, beta_90]

lemma rawTheta4_m90_eq :
    rawTheta4 (-90) DEFAULT_PARAMS =
      arctan (1 / 2) - π - arccos (cosBetaD 90 DEFAULT_PARAMS) := by
  rw [rawTheta4, if_neg not_infeasible_m90, phi_m90, beta_m90]

lemma sqrt_125_lb : 1.118033 < Real.sqrt 1.25 := by
  have h := Real.sq_sqrt (by norm_num : (0 : ℝ) ≤ 1.25)
  have hnn := Real.sqrt_nonneg (1.25 : ℝ)
  nlinarith

lemma sqrt_125_ub : Real.sqrt 1.25 < 1.118034 := by
  have h := Real.sq_sqrt (by norm_num : (0 : ℝ) ≤ 1.25)
  have hnn := Real.sqrt_nonneg (1.25 : ℝ)
  nlinarith

lemma cos_arctan_half : Real.cos (arctan (1 / 2)) = 1 / Real.sqrt 1.25 := by
  rw [cos_arctan, show (1 : ℝ) + (1 / 2) ^ 2 = 1.25 by norm_num]

lemma sin_arctan_half : Real.sin (arctan (1 / 2)) = 1 / 2 / Real.sqrt 1.25 := by
  rw [sin_arctan, show (1 : ℝ) + (1 / 2) ^ 2 = 1.25 by norm_num]

lemma arctan_half_pos : 0 < arctan (1 / 2) := by
  have h := arctan_strictMono (show (0 : ℝ) < 1 / 2 by norm_num)
  rwa [arctan_zero] at h

lemma beta90_pos : 0 < arccos (cosBetaD 90 DEFAULT_PARAMS) :=
  arccos_pos.mpr (lt_trans c90_ub (by norm_num))

lemma beta90_lt : arccos (cosBetaD 90 DEFAULT_PARAMS) < π / 2 :=
  arccos_lt_pi_div_two.mpr (lt_trans (by norm_num) c90_lb)

lemma cos_beta90 :
    Real.cos (arccos (cosBetaD 90 DEFAULT_PARAMS)) = cosBetaD 90 DEFAULT_PARAMS :=
  Real.cos_arccos (le_trans (by norm_num) (le_of_lt c90_lb))
    (le_of_lt (lt_trans c90_ub (by norm_num)))

lemma u90_lb : 0.89536 < Real.sqrt (1 - cosBetaD 90 DEFAULT_PARAMS ^ 2) := by
  have hlb := c90_lb
  have hub := c90_ub
  have hnn : (0 : ℝ) ≤ 1 - cosBetaD 90 DEFAULT_PARAMS ^ 2 := by nlinarith
  have h := Real.sq_sqrt hnn
  have hu := Real.sqrt_nonneg (1 - cosBetaD 90 DEFAULT_PARAMS ^ 2)
  nlinarith

lemma u90_ub : Real.sqrt (1 - cosBetaD 90 DEFAULT_PARAMS ^ 2) < 0.89538 := by
  have hlb := c90_lb
  have hub := c90_ub
  have hnn : (0 : ℝ) ≤ 1 - cosBetaD 90 DEFAULT_PARAMS ^ 2 := by nlinarith
  have h := Real.sq_sqrt hnn
  have hu := Real.sqrt_nonneg (1 - cosBetaD 90 DEFAULT_PARAMS ^ 2)
  nlinarith

lemma cos_rawTheta4_90 :
    Real.cos (rawTheta4 90 DEFAULT_PARAMS) =
      (Real.sqrt (1 - cosBetaD 90 DEFAULT_PARAMS ^ 2) / 2 -
        cosBetaD 90 DEFAULT_PARAMS) / Real.sqrt 1.25 := by
  rw [rawTheta4_90_eq,
    show π - arctan (1 / 2) - arccos (cosBetaD 90 DEFAULT_PARAMS) =
      π - (arctan (1 / 2) + arccos (cosBetaD 90 DEFAULT_PARAMS)) by ring,
    Real.cos_pi_sub, Real.cos_add, cos_arctan_half, sin_arctan_half,
    cos_beta90, Real.sin_arccos]
  have hw : Real.sqrt 1.25 ≠ 0 := by
    have := sqrt_125_lb
    linarith
  field_simp
  ring

lemma sin_rawTheta4_90 :
    Real.sin (rawTheta4 90 DEFAULT_PARAMS) =
      (cosBetaD 90 DEFAULT_PARAMS / 2 +
        Real.sqrt (1 - cosBetaD 90 DEFAULT_PARAMS ^ 2)) / Real.sqrt 1.25 := by
  rw [rawTheta4_90_eq,
    show π - arctan (1 / 2) - arccos (cosBetaD 90 DEFAULT_PARAMS) =
      π - (arctan (1 / 2) + arccos (cosBetaD 90 DEFAULT_PARAMS)) by ring,
    Real.sin_pi_sub, Real.sin_add, cos_arctan_half, sin_arctan_half,
    cos_beta90, Real.sin_arccos]
  have hw : Real.sqrt 1.25 ≠ 0 := by
    have := sqrt_125_lb
    linarith
  field_simp
  ring

lemma cos_rawTheta4_m90 :
    Real.cos (rawTheta4 (-90) DEFAULT_PARAMS) =
      -((cosBetaD 90 DEFAULT_PARAMS +
        Real.sqrt (1 - cosBetaD 90 DEFAULT_PARAMS ^ 2) / 2) / Real.sqrt 1.25) := by
  rw [rawTheta4_m90_eq,
    show arctan (1 / 2) - π - arccos (cosBetaD 90 DEFAULT_PARAMS) =
      arctan (1 / 2) - arccos (cosBetaD 90 DEFAULT_PARAMS) - π by ring,
    Real.cos_sub _ π, Real.cos_pi, Real.sin_pi,
    Real.cos_sub, cos_arctan_half, sin_arctan_half, cos_beta90, Real.sin_arccos]
  have hw : Real.sqrt 1.25 ≠ 0 := by
    have := sqrt_125_lb
    linarith
  field_simp
  ring

lemma sin_rawTheta4_m90 :
    Real.sin (rawTheta4 (-90) DEFAULT_PARAMS) =
      (Real.sqrt (1 - cosBetaD 90 DEFAULT_PARAMS ^ 2) -
        cosBetaD 90 DEFAULT_PARAMS / 2) / Real.sqrt 1.25 := by
  rw [rawTheta4_m90_eq,
    show arctan (1 / 2) - π - arccos (cosBetaD 90 DEFAULT_PARAMS) =
      arctan (1 / 2) - arccos (cosBetaD 90 DEFAULT_PARAMS) - π by ring,
    Real.sin_sub _ π, Real.cos_pi, Real.sin_pi,
    Real.sin_sub, Real.cos_sub, cos_arctan_half, sin_arctan_half,
    cos_beta90, Real.sin_arccos]
  have hw : Real.sqrt 1.25 ≠ 0 := by
    have := sqrt_125_lb
    linarith
  field_simp
  ring

lemma cos_rawTheta4_90_lb : 0.002 < Real.cos (rawTheta4 90 DEFAULT_PARAMS) := by
  rw [cos_rawTheta4_90]
  have hc1 := c90_lb
  have hc2 := c90_ub
  have hu1 := u90_lb
  have hu2 := u90_ub
  have hw1 := sqrt_125_lb
  have hw2 := sqrt_125_ub
  rw [lt_div_iff₀ (by linarith : (0 : ℝ) < Real.sqrt 1.25)]
  nlinarith

lemma cos_rawTheta4_90_ub : Real.cos (rawTheta4 90 DEFAULT_PARAMS) < 0.0025 := by
  rw [cos_rawTheta4_90]
  have hc1 := c90_lb
  have hc2 := c90_ub
  have hu1 := u90_lb
  have hu2 := u90_ub
  have hw1 := sqrt_125_lb
  have hw2 := sqrt_125_ub
  rw [div_lt_iff₀ (by linarith : (0 : ℝ) < Real.sqrt 1.25)]
  nlinarith

lemma cos_rawTheta4_m90_lb : -0.7988 < Real.cos (rawTheta4 (-90) DEFAULT_PARAMS) := by
  rw [cos_rawTheta4_m90]
  have hc1 := c90_lb
  have hc2 := c90_ub
  have hu1 := u90_lb
  have hu2 := u90_ub
  have hw1 := sqrt_125_lb
  have hw2 := sqrt_125_ub
  have hpos : (0 : ℝ) < Real.sqrt 1.25 := by linarith
  rw [neg_lt, neg_neg, div_lt_iff₀ hpos]
  nlinarith

lemma cos_rawTheta4_m90_ub : Real.cos (rawTheta4 (-90) DEFAULT_PARAMS) < -0.798 := by
  rw [cos_rawTheta4_m90]
  have hc1 := c90_lb
  have hc2 := c90_ub
  have hu1 := u90_lb
  have hu2 := u90_ub
  have hw1 := sqrt_125_lb
  have hw2 := sqrt_125_ub
  have hpos : (0 : ℝ) < Real.sqrt 1.25 := by linarith
  rw [neg_lt_neg_iff, lt_div_iff₀ hpos]
  nlinarith

lemma sin_rawTheta4_m90_lb : 0.6 < Real.sin (rawTheta4 (-90) DEFAULT_PARAMS) := by
  rw [sin_rawTheta4_m90]
  have hc1 := c90_lb
  have hc2 := c90_ub
  have hu1 := u90_lb
  have hu2 := u90_ub
  have hw1 := sqrt_125_lb
  have hw2 := sqrt_125_ub
  rw [lt_div_iff₀ (by linarith : (0 : ℝ) < Real.sqrt 1.25)]
  nlinarith

lemma rawTheta4_90_pos : 0 < rawTheta4 90 DEFAULT_PARAMS := by
  rw [rawTheta4_90_eq]
  have h1 := arctan_lt_pi_div_two (1 / 2 : ℝ)
  have h2 := beta90_lt
  linarith

lemma rawTheta4_90_lt : rawTheta4 90 DEFAULT_PARAMS < π / 2 := by
  by_contra h
  push_neg at h
  have hpi : rawTheta4 90 DEFAULT_PARAMS ≤ π + π / 2 := by
    rw [rawTheta4_90_eq]
    have h1 := arctan_half_pos
    have h2 := beta90_pos
    have := pi_pos
    linarith
  have := cos_nonpos_of_pi_div_two_le_of_le h hpi
  linarith [cos_rawTheta4_90_lb]

lemma rawTheta4_90_gt : π / 2 - 0.02 < rawTheta4 90 DEFAULT_PARAMS := by
  by_contra h
  push_neg at h
  have hx1 : 0.02 ≤ π / 2 - rawTheta4 90 DEFAULT_PARAMS := by linarith
  have hx2 : π / 2 - rawTheta4 90 DEFAULT_PARAMS ≤ π / 2 := by
    linarith [rawTheta4_90_pos]
  have hmono :=
    Real.strictMonoOn_sin.monotoneOn
      (Set.mem_Icc.mpr ⟨by linarith [pi_pos], by linarith [pi_gt_three]⟩)
      (Set.mem_Icc.mpr ⟨by linarith [pi_pos], hx2⟩) hx1
  rw [Real.sin_pi_div_two_sub] at hmono
  have hcube := Real.sin_gt_sub_cube
    (by norm_num : (0 : ℝ) < 0.02) (by norm_num : (0.02 : ℝ) ≤ 1)
  have := cos_rawTheta4_90_ub
  nlinarith

lemma theta4_90_deg_eq :
    (calculateKinematics 90 DEFAULT_PARAMS).theta4 =
      rawTheta4 90 DEFAULT_PARAMS * 180 / π := by
  show normalizeDegrees (rawTheta4 90 DEFAULT_PARAMS * 180 / π) = _
  have hpi := pi_pos
  have h1 := rawTheta4_90_pos
  have h2 := rawTheta4_90_lt
  apply normalizeDegrees_eq_self
  · have : 0 < rawTheta4 90 DEFAULT_PARAMS * 180 / π :=
      div_pos (by linarith) hpi
    linarith
  · rw [div_le_iff₀ hpi]
    nlinarith

lemma theta4_90_bounds :
    88 < (calculateKinematics 90 DEFAULT_PARAMS).theta4 ∧
      (calculateKinematics 90 DEFAULT_PARAMS).theta4 < 90 := by
  rw [theta4_90_deg_eq]
  have hpi := pi_pos
  have hpi3 := pi_gt_three
  have h1 := rawTheta4_90_gt
  have h2 := rawTheta4_90_lt
  constructor
  · rw [lt_div_iff₀ hpi]
    nlinarith
  · rw [div_lt_iff₀ hpi]
    nlinarith

lemma theta40_rad_default : DEFAULT_PARAMS.theta40 * π / 180 = π / 2 := by
  rw [show DEFAULT_PARAMS.theta40 = (90 : ℝ) from rfl]
  ring

lemma deltaTheta4_90_eq :
    deltaTheta4D 90 DEFAULT_PARAMS = rawTheta4 90 DEFAULT_PARAMS - π / 2 := by
  rw [deltaTheta4D, if_neg not_infeasible_90, theta40_rad_default]
  have h1 := rawTheta4_90_gt
  have h2 := rawTheta4_90_lt
  have hpi3 := pi_gt_three
  exact normalizeRadians_eq_self (by linarith) (by linarith)

lemma K_default_pos : 0 < K_valD DEFAULT_PARAMS := by
  unfold K_valD I_valD PRB_GAMMA PRB_K_THETA DEFAULT_PARAMS
  norm_num

lemma K_default_ub : K_valD DEFAULT_PARAMS < 0.103 := by
  unfold K_valD I_valD PRB_GAMMA PRB_K_THETA DEFAULT_PARAMS
  norm_num

lemma energy_90_nonneg : 0 ≤ (calculateKinematics 90 DEFAULT_PARAMS).energy := by
  show 0 ≤ energyD 90 DEFAULT_PARAMS
  rw [energyD, if_neg not_infeasible_90]
  have hK := K_default_pos
  nlinarith [sq_nonneg (deltaTheta4D 90 DEFAULT_PARAMS)]

lemma energy_90_lt : (calculateKinematics 90 DEFAULT_PARAMS).energy < 0.001 := by
  show energyD 90 DEFAULT_PARAMS < 0.001
  rw [energyD, if_neg not_infeasible_90, deltaTheta4_90_eq]
  have h1 := rawTheta4_90_gt
  have h2 := rawTheta4_90_lt
  have hsq : (rawTheta4 90 DEFAULT_PARAMS - π / 2) ^ 2 < 0.0004 := by nlinarith
  have hK1 := K_default_pos
  have hK2 := K_default_ub
  nlinarith [sq_nonneg (rawTheta4 90 DEFAULT_PARAMS - π / 2)]

lemma normalizeRadians_shift (x : ℝ) : ∃ n : ℤ, normalizeRadians x = x - 2 * π * n := by
  rw [normalizeRadians_eq_normHalf]
  exact normHalf_shift π x

lemma normalizeRadians_eq_add_two_pi {x : ℝ} (h1 : -π < x + 2 * π)
    (h2 : x + 2 * π ≤ π) : normalizeRadians x = x + 2 * π := by
  obtain ⟨n, hn⟩ := normalizeRadians_shift x
  rw [normalizeRadians_eq_normHalf] at hn ⊢
  refine normHalf_unique pi_pos (normHalf_mem pi_pos x) ⟨h1, h2⟩ (n := -n - 1) ?_
  rw [hn]
  push_cast
  ring

lemma deltaTheta4_m90_pos : 0 < deltaTheta4D (-90) DEFAULT_PARAMS := by
  rw [deltaTheta4D, if_neg not_infeasible_m90, theta40_rad_default, rawTheta4_m90_eq]
  have hα1 := arctan_half_pos
  have hα2 := arctan_lt_pi_div_two (1 / 2 : ℝ)
  have hβ1 := beta90_pos
  have hβ2 := beta90_lt
  rw [normalizeRadians_eq_add_two_pi (by linarith) (by linarith)]
  linarith

lemma energy_m90_pos : 0 < (calculateKinematics (-90) DEFAULT_PARAMS).energy := by
  show 0 < energyD (-90) DEFAULT_PARAMS
  rw [energyD, if_neg not_infeasible_m90]
  exact mul_pos (mul_pos (by norm_num) K_default_pos)
    (pow_pos deltaTheta4_m90_pos 2)

lemma cos_theta4_output (theta2Deg : ℝ) (p : MechanismParams) :
    Real.cos ((calculateKinematics theta2Deg p).theta4 * π / 180) =
      Real.cos (rawTheta4 theta2Deg p) := by
  show Real.cos (normalizeDegrees (rawTheta4 theta2Deg p * 180 / π) * π / 180) = _
  obtain ⟨n, hn⟩ := normalizeDegrees_shift (rawTheta4 theta2Deg p * 180 / π)
  rw [hn]
  have harg : (rawTheta4 theta2Deg p * 180 / π - 360 * (n : ℝ)) * π / 180 =
      rawTheta4 theta2Deg p + ((-n : ℤ) : ℝ) * (2 * π) := by
    push_cast
    field_simp
    ring
  rw [harg, Real.cos_add_int_mul_two_pi]

lemma theta4_ne_90_m90 :
    (calculateKinematics (-90) DEFAULT_PARAMS).theta4 ≠
      (calculateKinematics 90 DEFAULT_PARAMS).theta4 := by
  intro heq
  have h1 := cos_theta4_output 90 DEFAULT_PARAMS
  have h2 := cos_theta4_output (-90) DEFAULT_PARAMS
  rw [heq, h1] at h2
  linarith [cos_rawTheta4_90_lb, cos_rawTheta4_m90_ub]

lemma rawTheta3_90_eq :
    rawTheta3 90 DEFAULT_PARAMS =
      arctan ((3.672 * Real.sin (rawTheta4 90 DEFAULT_PARAMS) - 1.5) /
        (3 + 3.672 * Real.cos (rawTheta4 90 DEFAULT_PARAMS))) := by
  rw [rawTheta3, if_neg not_infeasible_90, Ay_90, Ax_90,
    show PRB_GAMMA * DEFAULT_PARAMS.L4 = (3.672 : ℝ) by
      norm_num [PRB_GAMMA, DEFAULT_PARAMS],
    show DEFAULT_PARAMS.r1 = (3 : ℝ) by norm_num [DEFAULT_PARAMS], sub_zero]
  unfold atan2
  rw [if_pos (by linarith [cos_rawTheta4_90_lb] :
    (0 : ℝ) < 3 + 3.672 * Real.cos (rawTheta4 90 DEFAULT_PARAMS))]

lemma rawTheta3_m90_eq :
    rawTheta3 (-90) DEFAULT_PARAMS =
      arctan ((3.672 * Real.sin (rawTheta4 (-90) DEFAULT_PARAMS) + 1.5) /
        (3 + 3.672 * Real.cos (rawTheta4 (-90) DEFAULT_PARAMS))) := by
  rw [rawTheta3, if_neg not_infeasible_m90, Ay_m90, Ax_m90,
    show PRB_GAMMA * DEFAULT_PARAMS.L4 = (3.672 : ℝ) by
      norm_num [PRB_GAMMA, DEFAULT_PARAMS],
    show DEFAULT_PARAMS.r1 = (3 : ℝ) by norm_num [DEFAULT_PARAMS], sub_zero,
    sub_neg_eq_add]
  unfold atan2
  rw [if_pos (by linarith [cos_rawTheta4_m90_lb] :
    (0 : ℝ) < 3 + 3.672 * Real.cos (rawTheta4 (-90) DEFAULT_PARAMS))]

lemma rawTheta3_90_lt_m90 :
    rawTheta3 90 DEFAULT_PARAMS < rawTheta3 (-90) DEFAULT_PARAMS := by
  rw [rawTheta3_90_eq, rawTheta3_m90_eq]
  apply arctan_strictMono
  have hx90 : (0 : ℝ) < 3 + 3.672 * Real.cos (rawTheta4 90 DEFAULT_PARAMS) := by
    linarith [cos_rawTheta4_90_lb]
  have hxm90 : (0 : ℝ) < 3 + 3.672 * Real.cos (rawTheta4 (-90) DEFAULT_PARAMS) := by
    linarith [cos_rawTheta4_m90_lb]
  have hq90 : (3.672 * Real.sin (rawTheta4 90 DEFAULT_PARAMS) - 1.5) /
      (3 + 3.672 * Real.cos (rawTheta4 90 DEFAULT_PARAMS)) < 1 := by
    rw [div_lt_one hx90]
    have := Real.sin_le_one (rawTheta4 90 DEFAULT_PARAMS)
    linarith [cos_rawTheta4_90_lb]
  have hqm90 : (1 : ℝ) < (3.672 * Real.sin (rawTheta4 (-90) DEFAULT_PARAMS) + 1.5) /
      (3 + 3.672 * Real.cos (rawTheta4 (-90) DEFAULT_PARAMS)) := by
    rw [one_lt_div hxm90]
    linarith [sin_rawTheta4_m90_lb, cos_rawTheta4_m90_ub]
  linarith

lemma theta3_90_deg_eq :
    (calculateKinematics 90 DEFAULT_PARAMS).theta3 =
      rawTheta3 90 DEFAULT_PARAMS * 180 / π := by
  show normalizeDegrees (rawTheta3 90 DEFAULT_PARAMS * 180 / π) = _
  have hpi := pi_pos
  have h1 : -(π / 2) < rawTheta3 90 DEFAULT_PARAMS := by
    rw [rawTheta3_90_eq]; exact neg_pi_div_two_lt_arctan _
  have h2 : rawTheta3 90 DEFAULT_PARAMS < π / 2 := by
    rw [rawTheta3_90_eq]; exact arctan_lt_pi_div_two _
  apply normalizeDegrees_eq_self
  · rw [show (-180 : ℝ) = -180 * π / π by field_simp, div_lt_div_iff₀ hpi hpi]
    nlinarith
  · rw [div_le_iff₀ hpi]
    nlinarith

lemma theta3_m90_deg_eq :
    (calculateKinematics (-90) DEFAULT_PARAMS).theta3 =
      rawTheta3 (-90) DEFAULT_PARAMS * 180 / π := by
  show normalizeDegrees (rawTheta3 (-90) DEFAULT_PARAMS * 180 / π) = _
  have hpi := pi_pos
  have h1 : -(π / 2) < rawTheta3 (-90) DEFAULT_PARAMS := by
    rw [rawTheta3_m90_eq]; exact neg_pi_div_two_lt_arctan _
  have h2 : rawTheta3 (-90) DEFAULT_PARAMS < π / 2 := by
    rw [rawTheta3_m90_eq]; exact arctan_lt_pi_div_two _
  apply normalizeDegrees_eq_self
  · rw [show (-180 : ℝ) = -180 * π / π by field_simp, div_lt_div_iff₀ hpi hpi]
    nlinarith
  · rw [div_le_iff₀ hpi]
    nlinarith

lemma theta3_ne_90_m90 :
    (calculateKinematics (-90) DEFAULT_PARAMS).theta3 ≠
      (calculateKinematics 90 DEFAULT_PARAMS).theta3 := by
  rw [theta3_90_deg_eq, theta3_m90_deg_eq]
  intro h
  have hpi := Real.pi_ne_zero
  field_simp at h
  linarith [rawTheta3_90_lt_m90]

/-- C5: in the reference default scenario, at `θ2 = 90°` the state is valid
with `θ4` within 2° of 90°, `Δθ2 = 0` exactly and energy below `0.001`
(approximately zero); at `θ2 = -90°` the state is valid with strictly
positive (hence finite, nonzero, non-negative) energy, and both `θ3` and
`θ4` differ from their values at `θ2 = 90°`. -/
theorem default_scenario_reference_behavior :
    (calculateKinematics 90 DEFAULT_PARAMS).isValid = true ∧
    |(calculateKinematics 90 DEFAULT_PARAMS).theta4 - 90| < 2 ∧
    (calculateKinematics 90 DEFAULT_PARAMS).deltaTheta2 = 0 ∧
    0 ≤ (calculateKinematics 90 DEFAULT_PARAMS).energy ∧
    (calculateKinematics 90 DEFAULT_PARAMS).energy < 0.001 ∧
    (calculateKinematics (-90) DEFAULT_PARAMS).isValid = true ∧
    0 < (calculateKinematics (-90) DEFAULT_PARAMS).energy ∧
    (calculateKinematics (-90) DEFAULT_PARAMS).theta3 ≠
      (calculateKinematics 90 DEFAULT_PARAMS).theta3 ∧
    (calculateKinematics (-90) DEFAULT_PARAMS).theta4 ≠
      (calculateKinematics 90 DEFAULT_PARAMS).theta4 := by
  refine ⟨valid_90, ?_, ?_, energy_90_nonneg, energy_90_lt, valid_m90,
    energy_m90_pos, theta3_ne_90_m90, theta4_ne_90_m90⟩
  · rw [abs_lt]
    have h := theta4_90_bounds
    exact ⟨by linarith [h.1], by linarith [h.2]⟩
  · show (90 : ℝ) - DEFAULT_PARAMS.theta20 = 0
    norm_num [DEFAULT_PARAMS]

end Bistable
